import Mathlib

/-!
Verification of the blip.tv grab pipeline (`pipeline.py`).

The source file defines a seesaw pipeline for archiving videos: it claims an
item from a tracker, prepares a working directory, downloads with Wget+Lua,
collects stats, relocates the output, uploads it under a concurrency cap, and
reports completion.  Strings are modelled as lists of characters; the
filesystem as an association list of file paths plus a list of directories.
Components whose code lives in the seesaw framework (retry loop, concurrency
gate, sequential stage driver, version/executable lookup helpers) are modelled
from the specification and from the comments in the source, as noted on each
definition.
-/

/-- Strings are modelled as lists of characters. -/
abbrev Str := List Char

/-- Substring containment test: does `pat` occur contiguously inside `s`?
Models Python's `pat in s`. -/
def containsSub (pat : Str) : Str → Bool
  | [] => pat.isEmpty
  | c :: rest => pat.isPrefixOf (c :: rest) || containsSub pat rest

/-- Python's `s.split(c)` for a one-character separator: the list of chunks
between occurrences of `c`; never empty. -/
def splitChar (c : Char) : Str → List Str
  | [] => [[]]
  | x :: xs =>
    match splitChar c xs with
    | [] => [[]]
    | y :: ys => if x = c then [] :: y :: ys else (x :: y) :: ys

/-- `item_name.split('/')[-1]` from `PrepareDirectories.process`
(pipeline.py line 119): the last chunk of the split. -/
def fileId (name : Str) : Str := (splitChar '/' name).getLastD []

/-- The specification's phrasing of the same derivation, written from the
spec's words, independent of the source: "`fileId` = substring of `item.name`
after the last `/`" (everything after the final occurrence of the separator,
or the whole string if the separator does not occur). -/
def afterLast (c : Char) : Str → Str
  | [] => []
  | x :: xs =>
    if c ∈ xs then afterLast c xs
    else if x = c then xs else x :: xs

/-- The assertions at the top of `PrepareDirectories.process` (pipeline.py
lines 115-118): the item name must contain a dash, a dot, a slash, and the
substring `http://`; any of them failing raises (AssertionError, the spec's
`InvalidItemName`). -/
def validate (name : Str) : Bool :=
  name.contains '-' && name.contains '.' && name.contains '/' &&
    containsSub "http://".toList name

/-- The acceptance condition as the specification words it: a scheme
separator, a host/path separator, and a filename component (a dotted last
segment).  Written from the spec, to be compared with `validate`. -/
def specAccepts (name : Str) : Bool :=
  containsSub "http://".toList name && name.contains '/' && name.contains '.'

/-- A wall-clock timestamp at second resolution, the input of
`time.strftime("%Y%m%d-%H%M%S")`. -/
structure Timestamp where
  year : Nat
  month : Nat
  day : Nat
  hour : Nat
  minute : Nat
  second : Nat
deriving DecidableEq

/-- Zero-pad the decimal digits of `n` on the left to width `w`. -/
def padNat (w n : Nat) : Str :=
  let d := Nat.toDigits 10 n
  List.replicate (w - d.length) '0' ++ d

/-- `time.strftime("%Y%m%d-%H%M%S")` (pipeline.py line 132). -/
def strftimeYmdHMS (t : Timestamp) : Str :=
  padNat 4 t.year ++ padNat 2 t.month ++ padNat 2 t.day ++ ['-'] ++
    padNat 2 t.hour ++ padNat 2 t.minute ++ padNat 2 t.second

/-- Everything raised by the modelled filesystem tasks. -/
inductive Err
  | InvalidItemName
  | RelocationError
deriving DecidableEq

/-- The per-item mutable mapping: the keys of `item` that the tasks in
pipeline.py read and write. -/
structure Item where
  item_name : Str
  data_dir : Str
  item_dir : Str := []
  file_id : Str := []
  file_base : Str := []
deriving DecidableEq

/-- A filesystem snapshot: files as an association list from full path to
contents, plus the set of directories, as a list. -/
structure FS where
  files : List (Str × Str)
  dirs : List Str
deriving DecidableEq

/-- Is path `p` strictly inside directory `d` (that is, `d ++ "/"` is an
initial segment of `p`)? -/
def isUnder (d p : Str) : Bool := (d ++ ['/']).isPrefixOf p

/-- Contents of the file at `p`, if one exists. -/
def lookupFile (fs : FS) (p : Str) : Option Str :=
  (fs.files.find? (fun kv => decide (kv.1 = p))).map (·.2)

/-- `os.path.isdir`: the path names an existing directory. -/
def isdir (fs : FS) (d : Str) : Bool := decide (d ∈ fs.dirs)

/-- `shutil.rmtree(d)`: recursively delete the directory `d`, every file
inside it and every sub-directory. -/
def rmtree (fs : FS) (d : Str) : FS :=
  { files := fs.files.filter (fun kv => !(isUnder d kv.1))
    dirs := fs.dirs.filter (fun x => !(decide (x = d) || isUnder d x)) }

/-- `os.makedirs(d)`: create the directory `d`. -/
def makedirs (fs : FS) (d : Str) : FS :=
  { fs with dirs := d :: fs.dirs }

/-- `open(p, "w").close()` / writing a file: (re)create the file at `p`
with the given contents, replacing any previous file at that path. -/
def writeFile (fs : FS) (p : Str) (content : Str) : FS :=
  { fs with files := (p, content) :: fs.files.filter (fun kv => !(decide (kv.1 = p))) }

/-- `os.rename(src, dst)`: move the file at `src` to `dst`.  Raises
(here: the spec's `RelocationError`) when no file exists at `src`, leaving
the filesystem unchanged. -/
def rename (fs : FS) (src dst : Str) : Option Err × FS :=
  match lookupFile fs src with
  | none => (some .RelocationError, fs)
  | some v =>
    (none, writeFile { fs with files := fs.files.filter (fun kv => !(decide (kv.1 = src))) } dst v)

/-- Lines 123-126 of pipeline.py: if a directory already exists at the
target path it is recursively removed, then a fresh directory is created. -/
def freshDir (fs : FS) (dirname : Str) : FS :=
  makedirs (if isdir fs dirname then rmtree fs dirname else fs) dirname

namespace PrepareDirectories

/-- `PrepareDirectories.process` (pipeline.py lines 111-135), with
`filePfx` the task's `file_prefix` field ("bliptv" in the pipeline) and
`ts` the current time read by `time.strftime`.  Validates the item name,
derives `file_id`, recreates the working directory, stores the derived
names on the item and creates the zero-byte placeholder file. -/
def process (filePfx : Str) (ts : Timestamp) (it : Item) (fs : FS) :
    Except Err (FS × Item) :=
  if validate it.item_name then
    let file_id := fileId it.item_name
    let dirname := it.data_dir ++ ['/'] ++ file_id
    let fs1 := freshDir fs dirname
    let file_base := filePfx ++ ['-'] ++ strftimeYmdHMS ts ++ ['-'] ++ file_id
    let fs2 := writeFile fs1 (dirname ++ ['/'] ++ file_base) []
    .ok (fs2, { it with item_dir := dirname, file_id := file_id, file_base := file_base })
  else
    .error .InvalidItemName

end PrepareDirectories

namespace MoveFiles

/-- `MoveFiles.process` (pipeline.py lines 142-146): rename
`item_dir/file_base` to `data_dir/file_base`, then remove `item_dir`
recursively.  When the rename raises, the filesystem is returned as it was
at the raise. -/
def process (it : Item) (fs : FS) : Option Err × FS :=
  match rename fs (it.item_dir ++ ['/'] ++ it.file_base)
      (it.data_dir ++ ['/'] ++ it.file_base) with
  | (some e, fs1) => (some e, fs1)
  | (none, fs1) => (none, rmtree fs1 it.item_dir)

end MoveFiles

/-- `Except.isOk` for our result type: did the task complete without
raising? -/
def exceptOk {ε α : Type} : Except ε α → Bool
  | .ok _ => true
  | .error _ => false

/-- Outcome of one run of a retried stage: how many attempts were made and
whether an acceptable code was eventually returned. -/
inductive StageResult
  | success (attempts : Nat)
  | failed (attempts : Nat)
deriving DecidableEq

/-- Modelled from the spec: seesaw's retrying external-process stage
("invokes its action once per attempt; on failure, retries up to
`retryPolicy.maxAttempts`; success is determined by checking the action's
result code against `retryPolicy.acceptableCodes`; exhausting retries marks
the item Failed").  `results i` is the exit code of the `i`-th invocation
(0-based); `left` counts the attempts still allowed, `used` those already
made. -/
def runRetry (acceptable : List Int) : Nat → Nat → (Nat → Int) → StageResult
  | 0, used, _ => .failed used
  | left + 1, used, results =>
    if results used ∈ acceptable then .success (used + 1)
    else runRetry acceptable left (used + 1) results

/-- `max_tries=5` from the `WgetDownload` invocation (pipeline.py line 184). -/
def wget_max_tries : Nat := 5

/-- `accept_on_exit_code=[0]` from the `WgetDownload` invocation
(pipeline.py line 185). -/
def wget_accept_on_exit_code : List Int := [0]

/-- The shape of `NumberConfigValue(min=.., max=.., default=..)` from
seesaw.config, as used at pipeline.py lines 194-196. -/
structure NumberConfigValue where
  lo : Nat
  hi : Nat
  dflt : Nat
deriving DecidableEq

/-- Modelled from the spec: a `NumberConfigValue` accepts exactly the
operator-supplied integers between its bounds. -/
def NumberConfigValue.accepts (c : NumberConfigValue) (v : Nat) : Bool :=
  c.lo ≤ v && v ≤ c.hi

/-- `NumberConfigValue(min=1, max=4, default="1", name="shared:rsync_threads",
...)`, the capacity configuration of the upload gate (pipeline.py
lines 194-196). -/
def rsync_threads : NumberConfigValue := ⟨1, 4, 1⟩

/-- A concurrency gate: its configured capacity and the number of slots
currently held. -/
structure Gate where
  capacity : Nat
  inUse : Nat
deriving DecidableEq

/-- Modelled from the spec: the transitions of a `ConcurrencyGate`
(seesaw's `LimitConcurrent`).  Acquisition suspends while `inUse =
capacity`, so the acquire transition is only enabled below capacity;
release frees a held slot. -/
inductive GateStep : Gate → Gate → Prop
  | acquire {g : Gate} : g.inUse < g.capacity → GateStep g ⟨g.capacity, g.inUse + 1⟩
  | free {g : Gate} : 0 < g.inUse → GateStep g ⟨g.capacity, g.inUse - 1⟩

/-- The gate states reachable from an idle gate of capacity `c`. -/
def GateReach (c : Nat) : Gate → Prop :=
  Relation.ReflTransGen GateStep ⟨c, 0⟩

/-- Terminal outcome of one stage for one item. -/
inductive Outcome
  | ok
  | failed
deriving DecidableEq

/-- Modelled from the spec: the seesaw `Pipeline` runs its task list for an
item strictly in order, recording each task's terminal outcome, and aborts
the rest of the list when a task fails.  `outcome s` is the terminal
outcome of stage `s` for the item being driven. -/
def runStages (outcome : Str → Outcome) : List Str → List (Str × Outcome)
  | [] => []
  | s :: rest =>
    match outcome s with
    | .ok => (s, .ok) :: runStages outcome rest
    | .failed => [(s, .failed)]

/-- The task sequence of the `Pipeline(...)` expression (pipeline.py
lines 164-216), in source order. -/
def pipelineStages : List Str :=
  ["GetItemFromTracker".toList, "PrepareDirectories".toList,
   "WgetDownload".toList, "PrepareStatsForTracker".toList,
   "MoveFiles".toList, "LimitConcurrent".toList,
   "SendDoneToTracker".toList]

/-- The observable steps of `AsyncPopenFixed.run` (pipeline.py lines
34-59), one constructor per statement with an externally visible effect. -/
inductive RunEvent
  | setIoloop
  | openPty
  | setNonblocking
  | setMasterFd
  | setMaster
  | addHandler
  | setSlave
  | setPipe
  | setStdin
  | startWaitCallback (intervalMs : Nat)
deriving DecidableEq

namespace AsyncPopenFixed

/-- The statements of `AsyncPopenFixed.run` in source order: fetch the
ioloop, open the pty, make the master non-blocking, store the master fd and
file, register the read handler, wire the slave into the subprocess
arguments, spawn the subprocess into `self.pipe`, store stdin, and only
then create and start the 250ms `PeriodicCallback` that polls
`_wait_for_end`. -/
def runEvents : List RunEvent :=
  [.setIoloop, .openPty, .setNonblocking, .setMasterFd, .setMaster,
   .addHandler, .setSlave, .setPipe, .setStdin, .startWaitCallback 250]

end AsyncPopenFixed

/-- A `StrictVersion`-style version number with three components, enough
for "0.0.15"-shaped versions. -/
structure SVersion where
  major : Nat
  minor : Nat
  patch : Nat
deriving DecidableEq

/-- Lexicographic comparison of versions, the order `StrictVersion` uses. -/
def SVersion.before (a b : SVersion) : Bool :=
  decide (a.major < b.major) ||
    (decide (a.major = b.major) &&
      (decide (a.minor < b.minor) ||
        (decide (a.minor = b.minor) && decide (a.patch < b.patch))))

/-- `StrictVersion("0.0.15")`, the minimum seesaw version demanded at
pipeline.py lines 24-25. -/
def requiredSeesaw : SVersion := ⟨0, 0, 15⟩

/-- The required `--version` output, `["GNU Wget 1.14.lua.20130523-9a5c"]`
(pipeline.py line 73). -/
def wget_lua_versions : List Str := ["GNU Wget 1.14.lua.20130523-9a5c".toList]

/-- The candidate paths passed to `find_executable` (pipeline.py
lines 74-82). -/
def wget_lua_paths : List Str :=
  ["./wget-lua".toList, "./wget-lua-warrior".toList, "./wget-lua-local".toList,
   "../wget-lua".toList, "../../wget-lua".toList,
   "/home/warrior/wget-lua".toList, "/usr/bin/wget-lua".toList]

/-- Modelled from the source's own comment (pipeline.py lines 66-70,
seesaw.util.find_executable): the result "will be set to the first path
that 1. does not crash with --version, and 2. prints the required version
string".  `env p` is the `--version` output of candidate `p`, or `none`
when running it crashes. -/
def find_executable (versions : List Str) (paths : List Str)
    (env : Str → Option Str) : Option Str :=
  paths.find? (fun p =>
    match env p with
    | none => false
    | some out => versions.any (fun v => containsSub v out))

/-- The failures module import can end in. -/
inductive LoadError
  | SeesawTooOld
  | NoWgetLua
deriving DecidableEq

/-- What a successful import of pipeline.py produces before any item is
processed: the selected Wget+Lua path. -/
structure LoadedConfig where
  wgetLua : Str
deriving DecidableEq

/-- The import-time checks of pipeline.py: raise when the seesaw version is
below 0.0.15 (lines 24-25); raise when no usable Wget+Lua executable is
found (lines 71-86).  Only when both pass is the module (and hence the
pipeline) constructed. -/
def moduleLoad (ver : SVersion) (env : Str → Option Str) :
    Except LoadError LoadedConfig :=
  if SVersion.before ver requiredSeesaw then .error .SeesawTooOld
  else
    match find_executable wget_lua_versions wget_lua_paths env with
    | none => .error .NoWgetLua
    | some p => .ok ⟨p⟩

theorem splitChar_ne_nil (c : Char) (l : Str) : splitChar c l ≠ [] := by
  cases l with
  | nil => simp [splitChar]
  | cons x xs =>
    simp only [splitChar]
    cases splitChar c xs with
    | nil => simp
    | cons y ys =>
      by_cases hx : x = c <;> simp [hx]

theorem splitChar_of_not_mem (c : Char) (l : Str) (h : c ∉ l) :
    splitChar c l = [l] := by
  induction l with
  | nil => rfl
  | cons x xs ih =>
    simp only [List.mem_cons, not_or] at h
    simp only [splitChar, ih h.2]
    simp [Ne.symm h.1]

theorem splitChar_length_of_mem (c : Char) (l : Str) (h : c ∈ l) :
    2 ≤ (splitChar c l).length := by
  induction l with
  | nil => simp at h
  | cons x xs ih =>
    simp only [splitChar]
    rcases hsp : splitChar c xs with _ | ⟨y, ys⟩
    · exact absurd hsp (splitChar_ne_nil c xs)
    · by_cases hx : x = c
      · simp [hx]
      · have hmem : c ∈ xs := by
          rcases List.mem_cons.mp h with h1 | h1
          · exact absurd h1.symm hx
          · exact h1
        have := ih hmem
        rw [hsp] at this
        simp only [hx, if_false]
        simpa using this

theorem afterLast_of_not_mem (c : Char) (l : Str) (h : c ∉ l) :
    afterLast c l = l := by
  cases l with
  | nil => rfl
  | cons x xs =>
    simp only [List.mem_cons, not_or] at h
    simp [afterLast, h.2, Ne.symm h.1]

theorem getLastD_indep {α : Type} (b : α) (bs : List α) (d1 d2 : α) :
    (b :: bs).getLastD d1 = (b :: bs).getLastD d2 := by
  cases bs with
  | nil => rfl
  | cons c cs =>
    rw [List.getLastD_cons d1 b (c :: cs), List.getLastD_cons d2 b (c :: cs)]

theorem getLastD_cons_cons {α : Type} (a b : α) (l : List α) (d : α) :
    (a :: b :: l).getLastD d = (b :: l).getLastD d := by
  rw [List.getLastD_cons]
  exact getLastD_indep b l a d

/-- Refinement: the source's `split('/')[-1]` computes exactly the spec's
"substring after the last separator". -/
theorem fileId_eq_afterLast (c : Char) (l : Str) :
    (splitChar c l).getLastD [] = afterLast c l := by
  induction l with
  | nil => rfl
  | cons x xs ih =>
    by_cases hmem : c ∈ xs
    · have hlen := splitChar_length_of_mem c xs hmem
      simp only [splitChar]
      rcases hsp : splitChar c xs with _ | ⟨y, ys⟩
      · exact absurd hsp (splitChar_ne_nil c xs)
      · rw [hsp] at hlen ih
        rcases ys with _ | ⟨w, ws⟩
        · simp at hlen
        · rw [getLastD_cons_cons] at ih
          by_cases hx : x = c
          · simp only [hx, if_true]
            rw [getLastD_cons_cons, getLastD_cons_cons, ih]
            simp [afterLast, hmem, hx]
          · simp only [hx, if_false]
            rw [getLastD_cons_cons, ih]
            simp [afterLast, hmem, hx]
    · simp only [splitChar]
      rw [splitChar_of_not_mem c xs hmem]
      by_cases hx : x = c
      · simp [hx, afterLast, hmem, afterLast_of_not_mem c xs hmem]
      · simp [hx, afterLast, hmem]

/-- The source-level file id derivation agrees with the spec-level one. -/
theorem fileId_spec (name : Str) : fileId name = afterLast '/' name :=
  fileId_eq_afterLast '/' name

/-- Shape of a successful `PrepareDirectories.process` run. -/
theorem prepare_ok (filePfx : Str) (ts : Timestamp) (it : Item) (fs : FS)
    (h : validate it.item_name = true) :
    PrepareDirectories.process filePfx ts it fs =
      .ok (writeFile (freshDir fs (it.data_dir ++ ['/'] ++ fileId it.item_name))
             ((it.data_dir ++ ['/'] ++ fileId it.item_name) ++ ['/'] ++
               (filePfx ++ ['-'] ++ strftimeYmdHMS ts ++ ['-'] ++ fileId it.item_name)) [],
           { it with
              item_dir := it.data_dir ++ ['/'] ++ fileId it.item_name
              file_id := fileId it.item_name
              file_base := filePfx ++ ['-'] ++ strftimeYmdHMS ts ++ ['-'] ++ fileId it.item_name }) := by
  simp [PrepareDirectories.process, h]

/-- Derived naming of a successful directory preparation, with the file id
in the specification's "substring after the last slash" form. -/
theorem prepare_naming (filePfx : Str) (ts : Timestamp) (it : Item) (fs : FS)
    (h : validate it.item_name = true) :
    ∃ fs2 it2, PrepareDirectories.process filePfx ts it fs = .ok (fs2, it2) ∧
      it2.file_id = afterLast '/' it.item_name ∧
      it2.file_base =
        filePfx ++ ['-'] ++ strftimeYmdHMS ts ++ ['-'] ++ afterLast '/' it.item_name ∧
      it2.item_dir = it.data_dir ++ ['/'] ++ afterLast '/' it.item_name := by
  refine ⟨_, _, prepare_ok filePfx ts it fs h, ?_, ?_, ?_⟩ <;>
    simp only [fileId_spec]

/-- C2: for every item whose name passes validation, directory preparation
derives the file id as the substring of the item name after the last `/`,
the file base as `{prefix}-{YYYYMMDD-HHMMSS}-{fileId}`, and uses
`{dataDir}/{fileId}` as the working directory path; in particular the
example item `http://blip.tv/example-show/ep-1.flv` with prefix `bliptv`
at 2013-10-11 12:00:00 produces file id `ep-1.flv`, file base
`bliptv-20131011-120000-ep-1.flv` and working path `{dataDir}/ep-1.flv`. -/
theorem C2_naming :
    (∀ (filePfx : Str) (ts : Timestamp) (it : Item) (fs : FS),
      validate it.item_name = true →
      ∃ fs2 it2, PrepareDirectories.process filePfx ts it fs = .ok (fs2, it2) ∧
        it2.file_id = afterLast '/' it.item_name ∧
        it2.file_base =
          filePfx ++ ['-'] ++ strftimeYmdHMS ts ++ ['-'] ++ afterLast '/' it.item_name ∧
        it2.item_dir = it.data_dir ++ ['/'] ++ afterLast '/' it.item_name) ∧
    (∀ (dataDir : Str) (fs : FS),
      ∃ fs2 it2,
        PrepareDirectories.process "bliptv".toList ⟨2013, 10, 11, 12, 0, 0⟩
          { item_name := "http://blip.tv/example-show/ep-1.flv".toList,
            data_dir := dataDir } fs = .ok (fs2, it2) ∧
        it2.file_id = "ep-1.flv".toList ∧
        it2.file_base = "bliptv-20131011-120000-ep-1.flv".toList ∧
        it2.item_dir = dataDir ++ "/ep-1.flv".toList) := by
  refine ⟨prepare_naming, ?_⟩
  intro dataDir fs
  obtain ⟨fs2, it2, hp, h1, h2, h3⟩ :=
    prepare_naming "bliptv".toList ⟨2013, 10, 11, 12, 0, 0⟩
      { item_name := "http://blip.tv/example-show/ep-1.flv".toList,
        data_dir := dataDir } fs
      (by show validate "http://blip.tv/example-show/ep-1.flv".toList = true; decide)
  have ha : afterLast '/' "http://blip.tv/example-show/ep-1.flv".toList =
      "ep-1.flv".toList := by decide
  have hb : (['/'] ++ "ep-1.flv".toList : Str) = "/ep-1.flv".toList := by decide
  refine ⟨fs2, it2, hp, ?_, ?_, ?_⟩
  · rw [h1]
    show afterLast '/' "http://blip.tv/example-show/ep-1.flv".toList =
      "ep-1.flv".toList
    exact ha
  · rw [h2]
    show "bliptv".toList ++ ['-'] ++ strftimeYmdHMS ⟨2013, 10, 11, 12, 0, 0⟩ ++
        ['-'] ++ afterLast '/' "http://blip.tv/example-show/ep-1.flv".toList =
      "bliptv-20131011-120000-ep-1.flv".toList
    decide
  · rw [h3]
    show (dataDir ++ ['/']) ++
        afterLast '/' "http://blip.tv/example-show/ep-1.flv".toList =
      dataDir ++ "/ep-1.flv".toList
    rw [ha, List.append_assoc, hb]

/-- Witness for C2: the general part applied to the spec's example item. -/
theorem C2_naming_witness :
    ∃ fs2 it2,
      PrepareDirectories.process "bliptv".toList ⟨2013, 10, 11, 12, 0, 0⟩
        { item_name := "http://blip.tv/example-show/ep-1.flv".toList,
          data_dir := "/data".toList } ⟨[], []⟩ = .ok (fs2, it2) ∧
      it2.file_id =
        afterLast '/' "http://blip.tv/example-show/ep-1.flv".toList ∧
      it2.file_base = "bliptv".toList ++ ['-'] ++
        strftimeYmdHMS ⟨2013, 10, 11, 12, 0, 0⟩ ++ ['-'] ++
        afterLast '/' "http://blip.tv/example-show/ep-1.flv".toList ∧
      it2.item_dir = "/data".toList ++ ['/'] ++
        afterLast '/' "http://blip.tv/example-show/ep-1.flv".toList :=
  C2_naming.1 "bliptv".toList ⟨2013, 10, 11, 12, 0, 0⟩
    { item_name := "http://blip.tv/example-show/ep-1.flv".toList,
      data_dir := "/data".toList } ⟨[], []⟩ (by decide)

/-- C5 counterexample: the item name `http://a/b.c` carries all three
structural markers the claim lists (scheme separator `http://`, host/path
separator `/`, dotted filename component `b.c`), yet directory preparation
rejects it, because the code additionally asserts that the name contains a
dash. -/
theorem C5_counterexample :
    specAccepts "http://a/b.c".toList = true ∧
    validate "http://a/b.c".toList = false ∧
    PrepareDirectories.process "bliptv".toList ⟨2013, 10, 11, 12, 0, 0⟩
      { item_name := "http://a/b.c".toList, data_dir := "/data".toList }
      ⟨[], []⟩ = .error .InvalidItemName :=
  ⟨by decide, by decide, rfl⟩

/-- C5 (amended): directory preparation accepts exactly the item names that
contain a dash, a dot, a slash, and the substring `http://`; every name
lacking any of these fails with `InvalidItemName`, and no other shape of
the name causes failure. -/
theorem C5_amended_validation :
    ∀ (filePfx : Str) (ts : Timestamp) (it : Item) (fs : FS),
      exceptOk (PrepareDirectories.process filePfx ts it fs) = validate it.item_name ∧
      (validate it.item_name = false →
        PrepareDirectories.process filePfx ts it fs = .error .InvalidItemName) := by
  intro filePfx ts it fs
  constructor
  · by_cases h : validate it.item_name
    · simp [PrepareDirectories.process, h, exceptOk]
    · simp only [Bool.not_eq_true] at h
      simp [PrepareDirectories.process, h, exceptOk]
  · intro h
    simp [PrepareDirectories.process, h]

/-- Witness for the amended C5: a name without the markers is rejected with
`InvalidItemName`. -/
theorem C5_amended_validation_witness :
    PrepareDirectories.process "bliptv".toList ⟨2013, 10, 11, 12, 0, 0⟩
      { item_name := "nourl".toList, data_dir := "/data".toList } ⟨[], []⟩ =
      .error .InvalidItemName :=
  (C5_amended_validation "bliptv".toList ⟨2013, 10, 11, 12, 0, 0⟩
    { item_name := "nourl".toList, data_dir := "/data".toList } ⟨[], []⟩).2
    (by decide)

/-- C7: at the start of directory preparation the working directory is
fresh and empty — whatever the previous filesystem state (assuming files
only live under existing directories), after the remove-then-create step no
file lies under the target path and the directory exists; a stale directory
is removed, never reused. -/
theorem C7_fresh_workdir (fs : FS) (d : Str)
    (hwf : ∀ kv ∈ fs.files, isUnder d kv.1 = true → d ∈ fs.dirs) :
    (freshDir fs d).files.all (fun kv => !(isUnder d kv.1)) = true ∧
    d ∈ (freshDir fs d).dirs := by
  constructor
  · rw [List.all_eq_true]
    intro kv hkv
    by_cases hd : isdir fs d
    · simp only [freshDir, hd, if_true, makedirs, rmtree] at hkv
      exact (List.mem_filter.mp hkv).2
    · simp only [freshDir, hd, if_false, makedirs] at hkv
      cases hu : isUnder d kv.1 with
      | false => simp [hu]
      | true =>
        exfalso
        have hmem := hwf kv hkv hu
        simp [isdir, hmem] at hd
  · simp [freshDir, makedirs]

/-- Witness for C7: a directory with stale contents is emptied and
recreated. -/
theorem C7_fresh_workdir_witness :
    (freshDir ⟨[("/d/ep.flv/stale".toList, "x".toList)], ["/d/ep.flv".toList]⟩
        "/d/ep.flv".toList).files.all
      (fun kv => !(isUnder "/d/ep.flv".toList kv.1)) = true ∧
    "/d/ep.flv".toList ∈
      (freshDir ⟨[("/d/ep.flv/stale".toList, "x".toList)], ["/d/ep.flv".toList]⟩
        "/d/ep.flv".toList).dirs :=
  C7_fresh_workdir
    ⟨[("/d/ep.flv/stale".toList, "x".toList)], ["/d/ep.flv".toList]⟩
    "/d/ep.flv".toList (by decide)

/-- C9: when directory preparation succeeds, a zero-byte placeholder file
named `file_base` exists inside the item's working directory. -/
theorem C9_placeholder (filePfx : Str) (ts : Timestamp) (it : Item) (fs : FS)
    (h : validate it.item_name = true) :
    ∃ fs2 it2, PrepareDirectories.process filePfx ts it fs = .ok (fs2, it2) ∧
      lookupFile fs2 (it2.item_dir ++ ['/'] ++ it2.file_base) = some [] := by
  refine ⟨_, _, prepare_ok filePfx ts it fs h, ?_⟩
  simp [lookupFile, writeFile, List.find?]

/-- Witness for C9: the placeholder exists for the example item on an empty
filesystem. -/
theorem C9_placeholder_witness :
    ∃ fs2 it2,
      PrepareDirectories.process "bliptv".toList ⟨2013, 10, 11, 12, 0, 0⟩
        { item_name := "http://blip.tv/example-show/ep-1.flv".toList,
          data_dir := "/data".toList } ⟨[], []⟩ = .ok (fs2, it2) ∧
      lookupFile fs2 (it2.item_dir ++ ['/'] ++ it2.file_base) = some [] :=
  C9_placeholder "bliptv".toList ⟨2013, 10, 11, 12, 0, 0⟩
    { item_name := "http://blip.tv/example-show/ep-1.flv".toList,
      data_dir := "/data".toList } ⟨[], []⟩ (by decide)

/-- C3: file relocation moves `workDir/fileBase` to `dataDir/fileBase` and
then recursively removes the working directory; when the source artifact is
absent it fails with `RelocationError` and the filesystem — in particular
the data directory — is left exactly as it was, the working directory not
removed. -/
theorem C3_relocation :
    (∀ (it : Item) (fs : FS) (v : Str),
      lookupFile fs (it.item_dir ++ ['/'] ++ it.file_base) = some v →
      isUnder it.item_dir (it.data_dir ++ ['/'] ++ it.file_base) = false →
      ∃ fs2, MoveFiles.process it fs = (none, fs2) ∧
        lookupFile fs2 (it.data_dir ++ ['/'] ++ it.file_base) = some v ∧
        it.item_dir ∉ fs2.dirs ∧
        fs2.files.all (fun kv => !(isUnder it.item_dir kv.1)) = true) ∧
    (∀ (it : Item) (fs : FS),
      lookupFile fs (it.item_dir ++ ['/'] ++ it.file_base) = none →
      MoveFiles.process it fs = (some .RelocationError, fs)) := by
  constructor
  · intro it fs v hsrc hnd
    refine ⟨rmtree
        (writeFile
          { fs with
              files := fs.files.filter
                (fun kv => !(decide (kv.1 = it.item_dir ++ ['/'] ++ it.file_base))) }
          (it.data_dir ++ ['/'] ++ it.file_base) v)
        it.item_dir, ?_, ?_, ?_, ?_⟩
    · simp only [List.append_assoc, List.singleton_append] at hsrc ⊢
      simp [MoveFiles.process, rename, hsrc]
    · simp only [List.append_assoc, List.singleton_append] at hnd ⊢
      simp [lookupFile, rmtree, writeFile, List.filter_cons, hnd]
    · intro hmem
      simp only [rmtree, writeFile] at hmem
      rw [List.mem_filter] at hmem
      simp at hmem
    · rw [List.all_eq_true]
      intro kv hkv
      simp only [rmtree, writeFile] at hkv
      exact (List.mem_filter.mp hkv).2
  · intro it fs h
    simp only [List.append_assoc, List.singleton_append] at h
    simp [MoveFiles.process, rename, h]

/-- Witness for C3: a concrete successful relocation and a concrete missing
source artifact. -/
theorem C3_relocation_witness :
    (∃ fs2,
      MoveFiles.process
        ⟨"http://a/b-c.flv".toList, "/data".toList, "/data/b-c.flv".toList,
          "b-c.flv".toList, "xbase".toList⟩
        ⟨[("/data/b-c.flv/xbase".toList, "CONTENT".toList)],
          ["/data".toList, "/data/b-c.flv".toList]⟩ = (none, fs2) ∧
      lookupFile fs2 ("/data".toList ++ ['/'] ++ "xbase".toList) =
        some "CONTENT".toList ∧
      "/data/b-c.flv".toList ∉ fs2.dirs ∧
      fs2.files.all (fun kv => !(isUnder "/data/b-c.flv".toList kv.1)) = true) ∧
    MoveFiles.process
      ⟨"http://a/b-c.flv".toList, "/data".toList, "/data/b-c.flv".toList,
        "b-c.flv".toList, "xbase".toList⟩ ⟨[], []⟩ =
      (some .RelocationError, ⟨[], []⟩) :=
  ⟨C3_relocation.1
      ⟨"http://a/b-c.flv".toList, "/data".toList, "/data/b-c.flv".toList,
        "b-c.flv".toList, "xbase".toList⟩
      ⟨[("/data/b-c.flv/xbase".toList, "CONTENT".toList)],
        ["/data".toList, "/data/b-c.flv".toList]⟩
      "CONTENT".toList (by decide) (by decide),
    C3_relocation.2
      ⟨"http://a/b-c.flv".toList, "/data".toList, "/data/b-c.flv".toList,
        "b-c.flv".toList, "xbase".toList⟩ ⟨[], []⟩ (by decide)⟩

/-- One unfolding step of the retry loop. -/
theorem runRetry_step (acc : List Int) (n used : Nat) (r : Nat → Int) :
    runRetry acc (n + 1) used r =
      if r used ∈ acc then .success (used + 1)
      else runRetry acc n (used + 1) r := rfl

/-- C1: with the download stage's `max_tries=5` and
`accept_on_exit_code=[0]`, an action returning a non-zero code on the first
four attempts and code 0 on the fifth yields stage success after exactly
five attempts, and an action returning non-zero codes on all five attempts
yields failure after exactly five attempts — no sixth attempt is made. -/
theorem C1_download_retries :
    (∀ results : Nat → Int, (∀ i, i < 4 → results i ≠ 0) → results 4 = 0 →
      runRetry wget_accept_on_exit_code wget_max_tries 0 results =
        .success 5) ∧
    (∀ results : Nat → Int, (∀ i, i < 5 → results i ≠ 0) →
      runRetry wget_accept_on_exit_code wget_max_tries 0 results =
        .failed 5) := by
  constructor
  · intro results h h4
    have h0 := h 0 (by omega)
    have h1 := h 1 (by omega)
    have h2 := h 2 (by omega)
    have h3 := h 3 (by omega)
    show runRetry wget_accept_on_exit_code (4 + 1) 0 results = .success 5
    rw [runRetry_step, if_neg (by simp [wget_accept_on_exit_code, h0]),
      runRetry_step, if_neg (by simp [wget_accept_on_exit_code, h1]),
      runRetry_step, if_neg (by simp [wget_accept_on_exit_code, h2]),
      runRetry_step, if_neg (by simp [wget_accept_on_exit_code, h3]),
      runRetry_step, if_pos (by simp [wget_accept_on_exit_code, h4])]
  · intro results h
    have h0 := h 0 (by omega)
    have h1 := h 1 (by omega)
    have h2 := h 2 (by omega)
    have h3 := h 3 (by omega)
    have h4 := h 4 (by omega)
    show runRetry wget_accept_on_exit_code (4 + 1) 0 results = .failed 5
    rw [runRetry_step, if_neg (by simp [wget_accept_on_exit_code, h0]),
      runRetry_step, if_neg (by simp [wget_accept_on_exit_code, h1]),
      runRetry_step, if_neg (by simp [wget_accept_on_exit_code, h2]),
      runRetry_step, if_neg (by simp [wget_accept_on_exit_code, h3]),
      runRetry_step, if_neg (by simp [wget_accept_on_exit_code, h4])]
    rfl

/-- Witness for C1: a concrete code sequence failing four times then
succeeding, and one failing all five times. -/
theorem C1_download_retries_witness :
    runRetry wget_accept_on_exit_code wget_max_tries 0
      (fun i => if i = 4 then (0 : Int) else 1) = .success 5 ∧
    runRetry wget_accept_on_exit_code wget_max_tries 0 (fun _ => (1 : Int)) =
      .failed 5 :=
  ⟨C1_download_retries.1 (fun i => if i = 4 then (0 : Int) else 1)
      (fun i hi => by
        have hne : i ≠ 4 := by omega
        simp [hne])
      (by simp),
    C1_download_retries.2 (fun _ => (1 : Int)) (fun i _ => by simp)⟩

/-- C4: in every gate state reachable from an idle gate, the number of
held slots never exceeds the capacity; and the upload gate's capacity
configuration is an operator-chosen integer bounded between 1 and 4 with
default 1. -/
theorem C4_gate_invariant :
    (∀ (c : Nat) (g : Gate), GateReach c g → g.inUse ≤ g.capacity) ∧
    rsync_threads.lo = 1 ∧ rsync_threads.hi = 4 ∧ rsync_threads.dflt = 1 ∧
    (∀ v, rsync_threads.accepts v = true ↔ 1 ≤ v ∧ v ≤ 4) := by
  refine ⟨?_, rfl, rfl, rfl, ?_⟩
  · intro c g h
    induction h with
    | refl => simp
    | tail h1 h2 ih =>
      cases h2 with
      | acquire hlt =>
        simp only
        omega
      | free hpos =>
        simp only
        omega
  · intro v
    simp [NumberConfigValue.accepts, rsync_threads]

/-- Witness for C4: the state after one acquisition on a capacity-1 gate
satisfies the invariant. -/
theorem C4_gate_invariant_witness :
    (Gate.mk 1 1).inUse ≤ (Gate.mk 1 1).capacity :=
  C4_gate_invariant.1 1 ⟨1, 1⟩
    (Relation.ReflTransGen.single (GateStep.acquire (by decide)))

/-- The stage driver executes a prefix of its stage list, pairing each
executed stage with its terminal outcome. -/
theorem runStages_order (outcome : Str → Outcome) (stages : List Str) :
    ∃ k, k ≤ stages.length ∧
      runStages outcome stages =
        (stages.take k).map (fun s => (s, outcome s)) := by
  induction stages with
  | nil => exact ⟨0, by simp, by simp [runStages]⟩
  | cons s rest ih =>
    cases ho : outcome s with
    | ok =>
      obtain ⟨k, hk, hmap⟩ := ih
      exact ⟨k + 1, by simpa using hk, by simp [runStages, ho, hmap]⟩
    | failed => exact ⟨1, by simp, by simp [runStages, ho]⟩

/-- C6: within one item the stages run strictly in the fixed source order
claim, directory preparation, download, stats collection, file relocation,
gated upload, completion report; whatever each stage's terminal outcome,
the executed trace is a prefix of that order with every executed stage
paired with its terminal outcome — so no stage starts before all earlier
stages have terminated. -/
theorem C6_stage_order :
    pipelineStages =
      ["GetItemFromTracker".toList, "PrepareDirectories".toList,
       "WgetDownload".toList, "PrepareStatsForTracker".toList,
       "MoveFiles".toList, "LimitConcurrent".toList,
       "SendDoneToTracker".toList] ∧
    ∀ outcome : Str → Outcome, ∃ k, k ≤ pipelineStages.length ∧
      runStages outcome pipelineStages =
        (pipelineStages.take k).map (fun s => (s, outcome s)) :=
  ⟨rfl, fun outcome => runStages_order outcome pipelineStages⟩

/-- C8: `AsyncPopenFixed.run` assigns the `pipe` field before starting the
periodic completion check — every prefix of its statement sequence that
contains the callback start also contains the `pipe` assignment — and the
completion check runs on a fixed 250 millisecond interval. -/
theorem C8_supervisor_order :
    (∀ p : List RunEvent, p <+: AsyncPopenFixed.runEvents →
      RunEvent.startWaitCallback 250 ∈ p → RunEvent.setPipe ∈ p) ∧
    (∀ n, RunEvent.startWaitCallback n ∈ AsyncPopenFixed.runEvents →
      n = 250) ∧
    RunEvent.startWaitCallback 250 ∈ AsyncPopenFixed.runEvents := by
  refine ⟨?_, ?_, by decide⟩
  · intro p hp hmem
    obtain ⟨k, hk, hkp⟩ :
        ∃ k, k ≤ 10 ∧ p = List.take k AsyncPopenFixed.runEvents := by
      refine ⟨p.length, ?_, ?_⟩
      · simpa [AsyncPopenFixed.runEvents] using hp.length_le
      · rw [List.prefix_iff_eq_take] at hp
        exact hp
    subst hkp
    revert hmem
    interval_cases k <;> decide
  · intro n hn
    simp [AsyncPopenFixed.runEvents] at hn
    exact hn

/-- Witness for C8: the full statement sequence contains the callback
start, and indeed contains the `pipe` assignment. -/
theorem C8_supervisor_order_witness :
    RunEvent.setPipe ∈ AsyncPopenFixed.runEvents :=
  C8_supervisor_order.1 AsyncPopenFixed.runEvents (List.prefix_refl _)
    (by decide)

/-- C10: module import fails before any item processing when the seesaw
version is below 0.0.15, and fails when no candidate path prints the
required Wget+Lua version string; in both cases `moduleLoad` returns an
error and no pipeline configuration is produced. -/
theorem C10_import_guards :
    (∀ (ver : SVersion) (env : Str → Option Str),
      SVersion.before ver requiredSeesaw = true →
      moduleLoad ver env = .error .SeesawTooOld) ∧
    (∀ (ver : SVersion) (env : Str → Option Str),
      SVersion.before ver requiredSeesaw = false →
      find_executable wget_lua_versions wget_lua_paths env = none →
      moduleLoad ver env = .error .NoWgetLua) := by
  constructor
  · intro ver env h
    simp [moduleLoad, h]
  · intro ver env h hf
    simp [moduleLoad, h, hf]

/-- Witness for C10: seesaw 0.0.14 is rejected, and with every candidate
crashing no Wget+Lua is found. -/
theorem C10_import_guards_witness :
    moduleLoad ⟨0, 0, 14⟩ (fun _ => none) = .error .SeesawTooOld ∧
    moduleLoad ⟨0, 0, 15⟩ (fun _ => none) = .error .NoWgetLua :=
  ⟨C10_import_guards.1 ⟨0, 0, 14⟩ (fun _ => none) (by decide),
    C10_import_guards.2 ⟨0, 0, 15⟩ (fun _ => none) (by decide) rfl⟩
